import Mathlib

/-!
Verification development for the container server of `src/swift/container/server.py`.

The controller (`ContainerController`) is embedded shallowly below.  Collaborators that
are not part of `src/` (the `ContainerBroker`, `split_path`, `check_mount`, `check_float`,
`check_xml_encodable`, `get_param`, the replicator RPC, the health check, and the Python
standard-library helpers `saxutils`, `simplejson`, `datetime`) are modelled from the
specification's contract for them; each such definition carries a doc comment saying so.
External effects (the filesystem existence of the DB file, the mount table, and the
outcome of the HTTP exchange with the account server) are passed as explicit parameters.
-/

set_option maxRecDepth 16000

namespace SwiftSrv

/-- Split a character list on a separator character (Python `str.split(sep)`). -/
def splitOnChar (c : Char) : List Char → List (List Char)
  | [] => [[]]
  | x :: xs =>
    if x = c then [] :: splitOnChar c xs
    else
      match splitOnChar c xs with
      | [] => [[x]]
      | h :: t => (x :: h) :: t

/-- List prefix test. -/
def charPre : List Char → List Char → Bool
  | [], _ => true
  | _ :: _, [] => false
  | a :: as, b :: bs => a == b && charPre as bs

/-- `p` is a prefix of `s` (Python `str.startswith`). -/
def strPre (p s : String) : Bool := charPre p.data s.data

/-- `sep.join(parts)`. -/
def joinSep (sep : String) : List String → String
  | [] => ""
  | [x] => x
  | x :: xs => x ++ sep ++ joinSep sep xs

/-- ASCII upper-casing (Python `str.upper` on the method token). -/
def upChar (c : Char) : Char :=
  if 97 ≤ c.toNat && c.toNat ≤ 122 then Char.ofNat (c.toNat - 32) else c

def pyUpper (s : String) : String := String.mk (s.data.map upChar)

/-- Byte-wise (code-point-wise) lexicographic comparison of character lists, matching
Python 2 `str` comparison for the UTF-8 strings handled by the server. -/
def charsLt : List Char → List Char → Bool
  | _, [] => false
  | [], _ :: _ => true
  | a :: as, b :: bs =>
    if a.toNat < b.toNat then true
    else if b.toNat < a.toNat then false
    else charsLt as bs

/-- Lexicographic order on strings (Python `>` on names, used by the listing engine). -/
def strLt (a b : String) : Bool := charsLt a.data b.data

/-- Numeric value of a list of decimal digit characters. -/
def digitsVal (l : List Char) : Nat := l.foldl (fun a c => 10 * a + (c.toNat - 48)) 0

/-- Python `str.isdigit`: true iff the string is non-empty and all characters are
decimal digits. -/
def pyIsdigit (s : String) : Bool :=
  match s.data with
  | [] => false
  | ds => ds.all Char.isDigit

/-- `int(s)` for an all-digit string (used after `isdigit` has been checked). -/
def natOf (s : String) : Nat := digitsVal s.data

/-- Python `int(s)`: optional sign followed by decimal digits; `none` models the
`ValueError` raised otherwise. -/
def pyInt (s : String) : Option Int :=
  match s.data with
  | '-' :: ds => if !ds.isEmpty && ds.all Char.isDigit then some (-(digitsVal ds : Int)) else none
  | ds => if !ds.isEmpty && ds.all Char.isDigit then some ((digitsVal ds : Int)) else none

/-- Modelled from the spec: timestamps are "decimal seconds since epoch with sub-second
precision" (§3) and the `x-timestamp` header must be a "well-formed decimal" (§4.4).
Parses `digits[.digits]` to a rational; `none` models a malformed value. -/
def parseDec (s : String) : Option ℚ :=
  match s.data.span Char.isDigit with
  | (ip, []) => if ip.isEmpty then none else some ((digitsVal ip : ℚ))
  | (ip, c :: fp) =>
    if c = '.' && fp.all Char.isDigit && (!ip.isEmpty || !fp.isEmpty) then
      some ((digitsVal ip : ℚ) + (digitsVal fp : ℚ) / (10 : ℚ) ^ fp.length)
    else none

/-- Modelled from the spec: `check_float` of `swift.common.constraints` (not under
`src/`) validates the decimal timestamp header. -/
def check_float (s : String) : Bool := (parseDec s).isSome

/-- HTTP response as the controller shapes it: numeric status, body, declared content
type, the custom reason phrase (used by the 507 mount failure, whose message lives in
the status line), and extra response headers.  Bodies that the `webob` framework would
generate on its own for canned error responses are modelled as empty. -/
structure Resp where
  status : Nat
  body : String := ""
  contentType : String := ""
  reason : String := ""
  headers : List (String × String) := []
deriving DecidableEq, Repr

def badRequest (b : String) : Resp := { status := 400, body := b, contentType := "text/plain" }

/-- 400 response for a missing or malformed `x-timestamp` header. -/
def respMissingTs : Resp := badRequest "Missing timestamp"

/-- `Response(status='507 %s is not mounted' % drive)`. -/
def notMounted (drive : String) : Resp := { status := 507, reason := drive ++ " is not mounted" }

def notFound : Resp := { status := 404 }
def conflict : Resp := { status := 409 }
def createdR : Resp := { status := 201 }
def acceptedR : Resp := { status := 202 }
def noContent204 : Resp := { status := 204 }
def noContentWith (hs : List (String × String)) : Resp := { status := 204, headers := hs }
def preconFailed (b : String) : Resp := { status := 412, body := b }
def methodNotAllowed : Resp := { status := 405 }

/-- The catch-all `HTTPInternalServerError(body=traceback.format_exc())`; the traceback
text itself is environment-dependent and modelled by its fixed leading line. -/
def internalError : Resp := { status := 500, body := "Traceback (most recent call last):" }

/-- Modelled from the spec: the generic health-check handler (§1, out of scope) answers
the `/healthcheck` path. -/
def healthResp : Resp := { status := 200, body := "OK" }

/-- Outcome of the HTTP exchange with the account server, as seen by `account_update`:
the connect may time out, the response read may time out, a status may arrive, or some
other exception may be raised during the exchange. -/
inductive AccountOutcome where
  | connectTimeout
  | readTimeout
  | status (n : Nat)
  | exc
deriving DecidableEq, Repr

/-- Result of running `account_update`: either it returns (an optional response), or an
exception escapes it (`raised`). -/
inductive AUResult where
  | ret (r : Option Resp)
  | raised
deriving DecidableEq, Repr

/-- The request, with the header and query-parameter fields the controller reads.
Header lookup in `webob` is case-insensitive, so each header is one optional field.
`acceptFormat` is the result of `req.accept.first_match([text/plain, json, xml])`;
`paramsUtf8` is false when `get_param` would raise `UnicodeDecodeError`; `jsonValid`
is false when the POST body is not a single JSON value. -/
structure Req where
  method : String := "GET"
  path : String := "/"
  remote_addr : String := "127.0.0.1"
  referer : Option String := none
  userAgent : Option String := none
  xTimestamp : Option String := none
  xSize : Option String := none
  xContentType : Option String := none
  xEtag : Option String := none
  xAccountHost : Option String := none
  xAccountPartition : Option String := none
  xAccountDevice : Option String := none
  xCfTransId : Option String := none
  xAccountOverrideDeleted : Option String := none
  qPath : Option String := none
  qPrefix : Option String := none
  qDelimiter : Option String := none
  qMarker : Option String := none
  qLimit : Option String := none
  qFormat : Option String := none
  acceptFormat : String := "text/plain"
  paramsUtf8 : Bool := true
  jsonValid : Bool := true

/-- Server configuration plus the external state the controller consults: whether
`mount_check` is enabled, which drives are mounted (`check_mount`), the
`CONTAINER_LISTING_LIMIT` constant imported from `swift.common` (not under `src/`, so
its numeric value is a parameter), and the response the replicator RPC dispatcher
returns verbatim. -/
structure Cfg where
  mount_check : Bool := true
  mounted : List String := []
  listingLimit : Nat := 10000
  rpcResp : Resp := { status := 200 }

/-- Modelled from the spec: `check_mount(root, drive)` of `swift.common.constraints`
(not under `src/`) succeeds iff `root/drive` is a mount point (§4.2). -/
def check_mount (cfg : Cfg) (drive : String) : Bool := cfg.mounted.contains drive

/-- One row of the object table (§3): deletions keep a tombstone row with `deleted`. -/
structure ObjRow where
  name : String
  created_at : ℚ
  size : Int
  content_type : String
  etag : String
  deleted : Bool
deriving DecidableEq, Repr

/-- Modelled from the spec: the per-container DB behind `ContainerBroker`
(`swift/common/db.py`, not under `src/`), following the §3 data model and the §4.3
contract.  `object_count` and `bytes_used` are derived from the live rows. -/
structure BrokerDB where
  created_at : ℚ
  put_timestamp : ℚ
  delete_timestamp : ℚ
  rows : List ObjRow
deriving DecidableEq, Repr

/-- `empty()`: true iff no live (non-tombstone) rows exist (§4.3). -/
def BrokerDB.empty (db : BrokerDB) : Bool := db.rows.all (·.deleted)

/-- `is_deleted()`: `delete_timestamp > put_timestamp` and `empty()` (§4.3). -/
def BrokerDB.is_deleted (db : BrokerDB) : Bool :=
  decide (db.put_timestamp < db.delete_timestamp) && db.empty

def BrokerDB.object_count (db : BrokerDB) : Nat := (db.rows.filter (fun r => !r.deleted)).length

def BrokerDB.bytes_used (db : BrokerDB) : Int :=
  (db.rows.filter (fun r => !r.deleted)).foldl (fun a r => a + r.size) 0

/-- `initialize(ts)`: creates the DB with `created_at = put_timestamp = ts`,
`delete_timestamp = 0` (§4.3). -/
def initDb (ts : ℚ) : BrokerDB :=
  { created_at := ts, put_timestamp := ts, delete_timestamp := 0, rows := [] }

/-- `update_put_timestamp(ts)`: `put_timestamp := max(current, ts)` (§4.3). -/
def BrokerDB.update_put_timestamp (db : BrokerDB) (ts : ℚ) : BrokerDB :=
  { db with put_timestamp := max db.put_timestamp ts }

/-- `delete_db(ts)`: sets `delete_timestamp := ts` (§4.3). -/
def BrokerDB.delete_db (db : BrokerDB) (ts : ℚ) : BrokerDB :=
  { db with delete_timestamp := ts }

/-- Timestamp-ordering upsert rule of §4.3: the new row replaces an existing row with
the same name iff the new `created_at` is greater, or the existing row is a tombstone
with equal timestamp.  Rows are kept sorted by name. -/
def insertRow : List ObjRow → ObjRow → List ObjRow
  | [], r => [r]
  | x :: xs, r =>
    if r.name = x.name then
      if x.created_at < r.created_at || (x.created_at = r.created_at && x.deleted) then
        r :: xs
      else
        x :: xs
    else if strLt r.name x.name then r :: x :: xs
    else x :: insertRow xs r

/-- `put_object(name, ts, size, content_type, etag)` (§4.3). -/
def BrokerDB.put_object (db : BrokerDB) (name : String) (ts : ℚ) (size : Int)
    (content_type etag : String) : BrokerDB :=
  let r : ObjRow :=
    { name := name, created_at := ts, size := size, content_type := content_type,
      etag := etag, deleted := false }
  { db with rows := insertRow db.rows r }

/-- `delete_object(name, ts)`: upsert of the tombstone `(name, ts, 0, "", "", 1)` (§4.3). -/
def BrokerDB.delete_object (db : BrokerDB) (name : String) (ts : ℚ) : BrokerDB :=
  let r : ObjRow :=
    { name := name, created_at := ts, size := 0, content_type := "", etag := "",
      deleted := true }
  { db with rows := insertRow db.rows r }

/-- Modelled from the spec: `split_path(unquote(path), 4, 5, True)` of
`swift.common.utils` (not under `src/`), per §4.1: minimum 4 and maximum 5 segments,
the optional fifth (the object name) may itself contain `/`, empty segments are
rejected.  URL decoding is omitted; requests are modelled post-decoding. -/
def split_path4 (p : String) :
    Except String (String × String × String × String × Option String) :=
  match p.data with
  | '/' :: rest =>
    match (splitOnChar '/' rest).map String.mk with
    | [a, b, c, d] =>
      if a != "" && b != "" && c != "" && d != "" then Except.ok (a, b, c, d, none)
      else Except.error ("Invalid path: " ++ p)
    | a :: b :: c :: d :: more =>
      let o := joinSep "/" more
      if a != "" && b != "" && c != "" && d != "" && o != "" then
        Except.ok (a, b, c, d, some o)
      else Except.error ("Invalid path: " ++ p)
    | _ => Except.error ("Invalid path: " ++ p)
  | _ => Except.error ("Invalid path: " ++ p)

/-- Modelled from the spec: `split_path(unquote(path), 3)` used by POST (§4.4):
exactly 3 non-empty segments. -/
def split_path3 (p : String) : Except String (String × String × String) :=
  match p.data with
  | '/' :: rest =>
    match (splitOnChar '/' rest).map String.mk with
    | [a, b, c] =>
      if a != "" && b != "" && c != "" then Except.ok (a, b, c)
      else Except.error ("Invalid path: " ++ p)
    | _ => Except.error ("Invalid path: " ++ p)
  | _ => Except.error ("Invalid path: " ++ p)

/-- A character the XML 1.0 grammar can encode (no control characters other than
tab/newline/return; Lean `Char` already excludes surrogates). -/
def xmlChar (c : Char) : Bool :=
  c == '\t' || c == '\n' || c == '\r' ||
  (32 ≤ c.toNat && c.toNat ≤ 55295) || (57344 ≤ c.toNat && c.toNat ≤ 65533) ||
  (65536 ≤ c.toNat)

/-- Modelled from the spec: `check_xml_encodable` of `swift.common.constraints`
(not under `src/`): the path must be XML-encodable (§4.6). -/
def check_xml_encodable (s : String) : Bool := s.data.all xmlChar

/-- Python truthiness of an optional header string: present and non-empty. -/
def truthy : Option String → Bool
  | none => false
  | some s => s != ""

/-- `all([account_host, account_partition, account_device])` in `account_update`. -/
def allAccountHeaders (req : Req) : Bool :=
  truthy req.xAccountHost && truthy req.xAccountPartition && truthy req.xAccountDevice

/-- `account_ip, account_port = account_host.split(':')`: succeeds iff the host has
exactly one `:`; otherwise the unpacking raises `ValueError`. -/
def splitHost (h : String) : Option (String × String) :=
  match splitOnChar ':' h.data with
  | [ip, port] => some (String.mk ip, String.mk port)
  | _ => none

/-- `ContainerController.account_update` (server.py lines 79-129).  The three account
headers are read; if any is missing or empty the update is skipped and `None` returned.
The host is split into `ip:port` BEFORE the `try` block, so a malformed host raises out
of the method (`AUResult.raised`).  Inside the `try`, a connect timeout, a read
timeout, or any other exception is swallowed (logged) and `None` returned; a 404 status
from the account server returns an `HTTPNotFound`; any other status returns `None`.
The broker argument is read only for the outgoing aggregate headers, which do not
influence the result. -/
def account_update (req : Req) (acct : AccountOutcome) (_broker : BrokerDB) : AUResult :=
  if allAccountHeaders req then
    match splitHost (req.xAccountHost.getD "") with
    | none => AUResult.raised
    | some _ =>
      match acct with
      | AccountOutcome.connectTimeout => AUResult.ret none
      | AccountOutcome.readTimeout => AUResult.ret none
      | AccountOutcome.exc => AUResult.ret none
      | AccountOutcome.status n =>
        if n = 404 then AUResult.ret (some notFound) else AUResult.ret none
  else AUResult.ret none

/-- A listing row as yielded by `list_objects_iter`: an object row, or a synthesized
subdir row (whose `content_type` is `None` in the Python tuple). -/
inductive LRow where
  | obj (name : String) (created_at : ℚ) (size : Int) (content_type : String) (etag : String)
  | subdir (name : String)
deriving DecidableEq, Repr

/-- Modelled from the spec: the scan loop of `list_objects_iter` (§4.6), recursing over
the rows in ascending name order.  `skip` remembers the last emitted subdir so that
every name under it is skipped. -/
def skipHit : Option String → String → Bool
  | none, _ => false
  | some sk, n => strPre sk n

def listCore : List ObjRow → Nat → String → String → Option Char → Option String → List LRow
  | [], _, _, _, _, _ => []
  | r :: rest, limit, marker, pre, delim, skip =>
    if limit = 0 then []
    else if r.deleted then listCore rest limit marker pre delim skip
    else if !strLt marker r.name then listCore rest limit marker pre delim skip
    else if !(strPre pre r.name) then listCore rest limit marker pre delim skip
    else if skipHit skip r.name then listCore rest limit marker pre delim skip
    else
      match delim with
      | none =>
        LRow.obj r.name r.created_at r.size r.content_type r.etag ::
          listCore rest (limit - 1) marker pre none skip
      | some d =>
        let restName := r.name.data.drop pre.data.length
        if restName.contains d then
          let sub := pre ++ String.mk (restName.takeWhile (fun c => c != d)) ++ String.mk [d]
          LRow.subdir sub :: listCore rest (limit - 1) marker pre (some d) (some sub)
        else
          LRow.obj r.name r.created_at r.size r.content_type r.etag ::
            listCore rest (limit - 1) marker pre (some d) skip

/-- Modelled from the spec: `ContainerBroker.list_objects_iter(limit, marker, prefix,
delimiter, path)` (§4.6); a set `path` overrides prefix/delimiter with
`prefix = path + '/'`, `delimiter = '/'`. -/
def list_objects_iter (db : BrokerDB) (limit : Nat) (marker : String)
    (pre delim pth : Option String) : List LRow :=
  match pth with
  | some p => listCore db.rows limit marker (p ++ "/") (some '/') none
  | none => listCore db.rows limit marker (pre.getD "") (delim.bind (fun d => d.data.head?)) none

/-- One character of `xml.sax.saxutils.escape` (Python stdlib, external): `&`, `<`, `>`
are replaced by entities; everything else (quotes included) passes through. -/
def escChar (c : Char) : String :=
  if c = '&' then "&amp;"
  else if c = '<' then "&lt;"
  else if c = '>' then "&gt;"
  else String.mk [c]

def escList : List Char → String
  | [] => ""
  | c :: cs => escChar c ++ escList cs

/-- `saxutils.escape` (Python stdlib, external model). -/
def saxEscape (s : String) : String := escList s.data

def quotRepl : List Char → String
  | [] => ""
  | c :: cs => (if c = '"' then "&quot;" else String.mk [c]) ++ quotRepl cs

/-- `saxutils.quoteattr` (Python stdlib, external model): escape, then wrap in the
quote kind not present in the data, using `&quot;` when both kinds occur. -/
def quoteattr (s : String) : String :=
  let e := saxEscape s
  if e.data.contains '"' then
    if e.data.contains (Char.ofNat 39) then "\"" ++ quotRepl e.data ++ "\""
    else String.mk [Char.ofNat 39] ++ e ++ String.mk [Char.ofNat 39]
  else "\"" ++ e ++ "\""

def pad (w n : Nat) : String :=
  let s := toString n
  String.mk (List.replicate (w - s.length) '0') ++ s

/-- Civil date from days since 1970-01-01 (proleptic Gregorian). -/
def civilFromDays (z0 : Int) : Int × Nat × Nat :=
  let z := z0 + 719468
  let era : Int := Int.fdiv z 146097
  let doe : Int := z - era * 146097
  let yoe : Int := Int.fdiv (doe - Int.fdiv doe 1460 + Int.fdiv doe 36524 - Int.fdiv doe 146096) 365
  let doy : Int := doe - (365 * yoe + Int.fdiv yoe 4 - Int.fdiv yoe 100)
  let mp : Int := Int.fdiv (5 * doy + 2) 153
  let d : Int := doy - Int.fdiv (153 * mp + 2) 5 + 1
  let m : Int := if mp < 10 then mp + 3 else mp - 9
  let y : Int := yoe + era * 400 + (if m ≤ 2 then 1 else 0)
  (y, m.toNat, d.toNat)

/-- `datetime.utcfromtimestamp(float(created_at)).isoformat()` (Python stdlib,
external model): ISO-8601 text, with a 6-digit fraction only when the microseconds
are non-zero.  The floor of `t` and the rounded microseconds of its fractional part
are computed directly on the numerator and denominator with integer arithmetic. -/
def isoOf (t : ℚ) : String :=
  let dn : Int := (t.den : Int)
  let t0 : Int := Int.fdiv t.num dn
  let micro0 : Int := Int.fdiv ((t.num - t0 * dn) * 2000000 + dn) (2 * dn)
  let sec : Int := if 1000000 ≤ micro0 then t0 + 1 else t0
  let micro : Int := if 1000000 ≤ micro0 then 0 else micro0
  let days : Int := Int.fdiv sec 86400
  let sod : Int := sec - days * 86400
  let ymd := civilFromDays days
  let hh : Int := Int.fdiv sod 3600
  let mi : Int := Int.fdiv (sod - hh * 3600) 60
  let ss : Int := sod - hh * 3600 - mi * 60
  let base := pad 4 ymd.1.toNat ++ "-" ++ pad 2 ymd.2.1 ++ "-" ++ pad 2 ymd.2.2 ++ "T" ++
    pad 2 hh.toNat ++ ":" ++ pad 2 mi.toNat ++ ":" ++ pad 2 ss.toNat
  if micro = 0 then base else base ++ "." ++ pad 6 micro.toNat

def hexDigit (n : Nat) : Char := if n < 10 then Char.ofNat (48 + n) else Char.ofNat (87 + n)

def uEsc (n : Nat) : String :=
  "\\u" ++ String.mk [hexDigit ((n / 4096) % 16), hexDigit ((n / 256) % 16),
                      hexDigit ((n / 16) % 16), hexDigit (n % 16)]

/-- One character of `simplejson.dumps` string escaping (external model,
`ensure_ascii` default). -/
def jsonEscChar (c : Char) : String :=
  if c = '"' then "\\\""
  else if c = '\\' then "\\\\"
  else if c = '\n' then "\\n"
  else if c = '\r' then "\\r"
  else if c = '\t' then "\\t"
  else if c.toNat = 8 then "\\b"
  else if c.toNat = 12 then "\\f"
  else if c.toNat < 32 then uEsc c.toNat
  else if c.toNat < 127 then String.mk [c]
  else if c.toNat ≤ 65535 then uEsc c.toNat
  else uEsc (55296 + (c.toNat - 65536) / 1024) ++ uEsc (56320 + (c.toNat - 65536) % 1024)

def jsonEscList : List Char → String
  | [] => ""
  | c :: cs => jsonEscChar c ++ jsonEscList cs

/-- `simplejson.dumps` on a string (external model). -/
def jsonDumps (s : String) : String := "\"" ++ jsonEscList s.data ++ "\""

/-- One listing row rendered by the JSON branch of GET (server.py lines 279-299).
Note the `etag` and the iso date are interpolated into plain `"%s"` quotes, and the
pattern join puts a space before `"last_modified"`. -/
def jsonRow : LRow → String
  | LRow.subdir name => "\x7b\"subdir\":" ++ jsonDumps name ++ "\x7d"
  | LRow.obj name created_at size content_type etag =>
    "\x7b\"name\":" ++ jsonDumps name ++ ",\"hash\":\"" ++ etag ++ "\",\"bytes\":" ++
      toString size ++ ",\"content_type\":" ++ jsonDumps content_type ++
      ", \"last_modified\":\"" ++ isoOf created_at ++ "\"\x7d"

/-- The JSON listing body (server.py line 299). -/
def jsonListing (rows : List LRow) : String :=
  "[" ++ joinSep "," (rows.map jsonRow) ++ "]"

/-- One listing row rendered by the XML branch of GET (server.py lines 300-315):
`name` and `content_type` go through `saxutils.escape`; the `etag` and the iso date
are interpolated verbatim; a subdir name lands in a double-quoted attribute escaped
only by `saxutils.escape`. -/
def xmlRow : LRow → String
  | LRow.subdir name => "<subdir name=\"" ++ saxEscape name ++ "\" />"
  | LRow.obj name created_at size content_type etag =>
    "<object><name>" ++ saxEscape name ++ "</name><hash>" ++ etag ++ "</hash>" ++
      "<bytes>" ++ toString size ++ "</bytes><content_type>" ++ saxEscape content_type ++
      "</content_type><last_modified>" ++ isoOf created_at ++ "</last_modified></object>"

/-- The XML listing body (server.py lines 316-319): prologue, `<container>` element
whose name attribute goes through `saxutils.quoteattr`, then the rows. -/
def xmlListing (container : String) (rows : List LRow) : String :=
  "<?xml version=\"1.0\" encoding=\"UTF-8\"?>\n" ++
    "<container name=" ++ quoteattr container ++ ">" ++
    String.join (rows.map xmlRow) ++ "</container>"

/-- The plain-text listing body (server.py line 324): one name per row. -/
def rowName : LRow → String
  | LRow.obj name _ _ _ _ => name
  | LRow.subdir name => name

def textListing (rows : List LRow) : String :=
  joinSep "\n" (rows.map rowName) ++ "\n"

/-- Result of running one method handler: a response, or an uncaught exception
(`raised`); both carry the (possibly mutated) DB file state. -/
inductive HResult where
  | resp (r : Resp) (fs : Option BrokerDB)
  | raised (fs : Option BrokerDB)
deriving DecidableEq, Repr

/-- The delimiter validation of GET (server.py lines 255-258): a set, non-empty
delimiter longer than one byte or with ordinal above 254 draws 412 `Bad delimiter`. -/
def delimErr : Option String → Option Resp
  | none => none
  | some d =>
    match d.data with
    | [] => none
    | [c] => if 254 < c.toNat then some (preconFailed "Bad delimiter") else none
    | _ => some (preconFailed "Bad delimiter")

/-- The limit-parameter handling of GET (server.py lines 260-266): start from
`CONTAINER_LISTING_LIMIT`; an all-digit `limit` replaces it, and a value above the
constant draws 412 `Maximum limit is %d`. -/
def effLimit (cfg : Cfg) : Option String → Except Resp Nat
  | none => Except.ok cfg.listingLimit
  | some s =>
    if pyIsdigit s then
      if cfg.listingLimit < natOf s then
        Except.error (preconFailed ("Maximum limit is " ++ toString cfg.listingLimit))
      else Except.ok (natOf s)
    else Except.ok cfg.listingLimit

/-- Format negotiation (server.py lines 267-276): the `format` query parameter wins
when truthy, else the negotiated Accept match; an `application/` prefix is stripped. -/
def resolveFormat (q : Option String) (hdr : String) : String :=
  let f := match q with
    | some s => if s != "" then s else hdr
    | none => hdr
  if strPre "application/" f then String.mk (f.data.drop 12) else f

/-- The read-path response headers built from `get_info()` (server.py lines 221-227
and 245-251). -/
def infoHeaders (db : BrokerDB) : List (String × String) :=
  [("X-Container-Object-Count", toString db.object_count),
   ("X-Container-Bytes-Used", toString db.bytes_used),
   ("X-Timestamp", toString db.created_at),
   ("X-PUT-Timestamp", toString db.put_timestamp)]

/-- The serialization tail of GET (server.py lines 279-328): json and xml always
answer 200 with the rendered body; plain text answers 204 when the listing is empty,
else 200 with one name per line. -/
def formatRows (fmt container : String) (hdrs : List (String × String))
    (rows : List LRow) : Resp :=
  if fmt = "json" then
    { status := 200, body := jsonListing rows, contentType := "application/json",
      headers := hdrs }
  else if fmt = "xml" then
    { status := 200, body := xmlListing container rows, contentType := "application/xml",
      headers := hdrs }
  else if rows.isEmpty then noContentWith hdrs
  else
    { status := 200, body := textListing rows, contentType := "text/plain",
      headers := hdrs }

/-- `ContainerController.GET` (server.py lines 230-328).  A missing DB file makes
`broker.is_deleted()` true (§4.3: callers distinguish existence via `is_deleted`),
hence 404. -/
def GETm (cfg : Cfg) (req : Req) (fs : Option BrokerDB) : Resp :=
  match split_path4 req.path with
  | Except.error e => badRequest e
  | Except.ok (drive, _, _, container, _) =>
    if cfg.mount_check && !check_mount cfg drive then notMounted drive
    else
      match fs with
      | none => notFound
      | some db =>
        if db.is_deleted then notFound
        else if !req.paramsUtf8 then badRequest "parameters not utf8"
        else
          match delimErr req.qDelimiter with
          | some r => r
          | none =>
            match effLimit cfg req.qLimit with
            | Except.error r => r
            | Except.ok limit =>
              formatRows (resolveFormat req.qFormat req.acceptFormat) container
                (infoHeaders db)
                (list_objects_iter db limit (req.qMarker.getD "") req.qPrefix
                  req.qDelimiter req.qPath)

/-- `ContainerController.HEAD` (server.py lines 206-228). -/
def HEADm (cfg : Cfg) (req : Req) (fs : Option BrokerDB) : Resp :=
  match split_path4 req.path with
  | Except.error e => badRequest e
  | Except.ok (drive, _, _, _, _) =>
    if cfg.mount_check && !check_mount cfg drive then notMounted drive
    else
      match fs with
      | none => notFound
      | some db => if db.is_deleted then notFound else noContentWith (infoHeaders db)

/-- `ContainerController.POST` (server.py lines 330-348): replication RPC; the
dispatcher's response (external, `swift.common.db_replicator`) is returned verbatim. -/
def POSTm (cfg : Cfg) (req : Req) : Resp :=
  match split_path3 req.path with
  | Except.error e => badRequest e
  | Except.ok (drive, _, _) =>
    if cfg.mount_check && !check_mount cfg drive then notMounted drive
    else if !req.jsonValid then badRequest "No JSON object could be decoded"
    else cfg.rpcResp

/-- `ContainerController.PUT` (server.py lines 167-204).  Argument evaluation order of
the `put_object` call is kept: a missing `x-size` raises before `x-content-type` is
read, etc.; all raise before `put_object` runs.  In the container branch the broker
mutation happens before `account_update` is fired. -/
def PUTm (cfg : Cfg) (req : Req) (fs : Option BrokerDB) (acct : AccountOutcome) : HResult :=
  match split_path4 req.path with
  | Except.error e => HResult.resp (badRequest e) fs
  | Except.ok (drive, _, _, _, obj) =>
    match req.xTimestamp.bind parseDec with
    | none => HResult.resp respMissingTs fs
    | some ts =>
      if cfg.mount_check && !check_mount cfg drive then HResult.resp (notMounted drive) fs
      else
        match obj with
        | some o =>
          match fs with
          | none => HResult.resp notFound fs
          | some db =>
            match req.xSize with
            | none => HResult.raised fs
            | some sz =>
              match pyInt sz with
              | none => HResult.raised fs
              | some n =>
                match req.xContentType with
                | none => HResult.raised fs
                | some ct =>
                  match req.xEtag with
                  | none => HResult.raised fs
                  | some et => HResult.resp createdR (some (db.put_object o ts n ct et))
        | none =>
          match fs with
          | none =>
            let db := initDb ts
            match account_update req acct db with
            | AUResult.raised => HResult.raised (some db)
            | AUResult.ret (some r) => HResult.resp r (some db)
            | AUResult.ret none => HResult.resp createdR (some db)
          | some db0 =>
            let created := db0.is_deleted
            let db1 := db0.update_put_timestamp ts
            if db1.is_deleted then HResult.resp conflict (some db1)
            else
              match account_update req acct db1 with
              | AUResult.raised => HResult.raised (some db1)
              | AUResult.ret (some r) => HResult.resp r (some db1)
              | AUResult.ret none =>
                if created then HResult.resp createdR (some db1)
                else HResult.resp acceptedR (some db1)

/-- `ContainerController.DELETE` (server.py lines 131-165). -/
def DELETEm (cfg : Cfg) (req : Req) (fs : Option BrokerDB) (acct : AccountOutcome) : HResult :=
  match split_path4 req.path with
  | Except.error e => HResult.resp (badRequest e) fs
  | Except.ok (drive, _, _, _, obj) =>
    match req.xTimestamp.bind parseDec with
    | none => HResult.resp respMissingTs fs
    | some ts =>
      if cfg.mount_check && !check_mount cfg drive then HResult.resp (notMounted drive) fs
      else
        match fs with
        | none => HResult.resp notFound fs
        | some db =>
          match obj with
          | some o => HResult.resp noContent204 (some (db.delete_object o ts))
          | none =>
            if !db.empty then HResult.resp conflict (some db)
            else
              let existed := decide (db.put_timestamp ≠ 0) && !db.is_deleted
              let db1 := db.delete_db ts
              if !db1.is_deleted then HResult.resp conflict (some db1)
              else
                match account_update req acct db1 with
                | AUResult.raised => HResult.raised (some db1)
                | AUResult.ret (some r) => HResult.resp r (some db1)
                | AUResult.ret none =>
                  if existed then HResult.resp noContent204 (some db1)
                  else HResult.resp acceptedR (some db1)

/-- Every attribute that `hasattr(self, req.method)` finds on a `ContainerController`
instance other than the five request handlers, and whose call with the single request
argument RAISES.  `ContainerController(object)` is a new-style class, so beside the
controller's own attributes (set in `__init__` or on the class: not callable, or wrong
arity) the dispatch also finds the attributes inherited from `object` (Python 2.6):
their calls raise because the value is not callable (`__class__` reaches `__init__`,
whose config lookup on a request object raises; `__dict__`, `__doc__`, `__module__`,
`__weakref__` are plain values), the method takes no argument (`__repr__`, `__str__`,
`__hash__`, `__sizeof__`), or the argument must be a string, integer or type
(`__delattr__`, `__setattr__`, `__getattribute__`, `__format__`, `__reduce__`,
`__reduce_ex__`, `__new__`).  The catch-all of `__call__` turns each into a 500. -/
def controllerAttrs : List String :=
  ["log_name", "logger", "root", "mount_check", "node_timeout", "conn_timeout",
   "replicator_rpc", "_get_container_broker", "account_update", "__init__", "__call__",
   "__class__", "__delattr__", "__dict__", "__doc__", "__format__", "__getattribute__",
   "__hash__", "__module__", "__new__", "__reduce__", "__reduce_ex__", "__repr__",
   "__setattr__", "__sizeof__", "__str__", "__weakref__"]

/-- The one `hasattr`-visible attribute whose call with the request RETURNS without
raising: `object.__subclasshook__` is a one-argument classmethod answering
`NotImplemented`.  The dispatched result is then not a response object, and
`res.status` in the log-line construction (server.py line 375) raises OUTSIDE the
`try`: the request produces no response and no access line. -/
def nonRespAttrs : List String := ["__subclasshook__"]

/-- Outcome of the `hasattr` dispatch (server.py lines 359-362): a handler result
(a response, or an exception caught by the catch-all), or the non-response value of a
dispatched `__subclasshook__` call. -/
inductive DResult where
  | handled (h : HResult)
  | nonResp (fs : Option BrokerDB)
deriving DecidableEq, Repr

/-- `if hasattr(self, req.method): getattr(self, req.method)(req) else 405`
(server.py lines 359-362). -/
def dispatch (cfg : Cfg) (req : Req) (fs : Option BrokerDB) (acct : AccountOutcome) : DResult :=
  if req.method = "GET" then DResult.handled (HResult.resp (GETm cfg req fs) fs)
  else if req.method = "HEAD" then DResult.handled (HResult.resp (HEADm cfg req fs) fs)
  else if req.method = "PUT" then DResult.handled (PUTm cfg req fs acct)
  else if req.method = "DELETE" then DResult.handled (DELETEm cfg req fs acct)
  else if req.method = "POST" then DResult.handled (HResult.resp (POSTm cfg req) fs)
  else if nonRespAttrs.contains req.method then DResult.nonResp fs
  else if controllerAttrs.contains req.method then DResult.handled (HResult.raised fs)
  else DResult.handled (HResult.resp methodNotAllowed fs)

inductive LogLevel where
  | debug
  | info
deriving DecidableEq, Repr

structure AccessLine where
  level : LogLevel
  msg : String
deriving DecidableEq, Repr

/-- `res.content_length or '-'`: the framework's content length of the body, with the
falsy values (`None`, `0`) printed as a dash. -/
def contentLengthStr (r : Resp) : String :=
  if r.body = "" then "-" else toString r.body.utf8ByteSize

def orDash : Option String → String
  | none => "-"
  | some s => if s != "" then s else "-"

/-- The access-log message of `__call__` (server.py lines 370-378), with the wall-clock
timestamp and the measured elapsed time passed in as opaque strings. -/
def accessMsg (req : Req) (res : Resp) (nowS transT : String) : String :=
  req.remote_addr ++ " - - [" ++ nowS ++ "] \"" ++ req.method ++ " " ++ req.path ++
    "\" " ++ toString res.status ++ " " ++ contentLengthStr res ++ " \"" ++
    (req.xCfTransId.getD "-") ++ "\" \"" ++ orDash req.referer ++ "\" \"" ++
    orDash req.userAgent ++ "\" " ++ transT

/-- `req.method.upper() == 'POST'` selects the debug level (server.py lines 379-382). -/
def accessLevel (req : Req) : LogLevel :=
  if pyUpper req.method = "POST" then LogLevel.debug else LogLevel.info

/-- The dispatch step of `__call__` after the health-check shortcut: a
non-XML-encodable path draws 412 `Invalid UTF8` without dispatching, else the method
is dispatched (server.py lines 355-362). -/
def reqDispatch (cfg : Cfg) (req : Req) (fs : Option BrokerDB) (acct : AccountOutcome) : DResult :=
  if !check_xml_encodable req.path then
    DResult.handled (HResult.resp (preconFailed "Invalid UTF8") fs)
  else dispatch cfg req fs acct

/-- `ContainerController.__call__` (server.py lines 350-383), in full: the
`/healthcheck` path is answered by the external health-check app BEFORE any logging;
otherwise the dispatched handler runs under the catch-all that converts an uncaught
exception into a 500 with a traceback body, and the request emits exactly one access
line.  `none` models the one remaining path: a dispatched `__subclasshook__` call
returns a non-response, `res.status` (line 375) raises OUTSIDE the `try`, and
`__call__` terminates with an exception — no response is delivered and no access line
is emitted. -/
def callFull (cfg : Cfg) (req : Req) (fs : Option BrokerDB) (acct : AccountOutcome)
    (nowS transT : String) : Option (Resp × Option BrokerDB × Option AccessLine) :=
  if req.path = "/healthcheck" then some (healthResp, fs, none)
  else
    match reqDispatch cfg req fs acct with
    | DResult.handled (HResult.resp r f) =>
      some (r, f, some { level := accessLevel req, msg := accessMsg req r nowS transT })
    | DResult.handled (HResult.raised f) =>
      some (internalError, f,
        some { level := accessLevel req, msg := accessMsg req internalError nowS transT })
    | DResult.nonResp _ => none

/-- The triple `__call__` delivers when it returns, i.e. the value of `callFull` when
it is `some`.  On the methods where `__call__` raises unlogged (`callFull = none`,
the `__subclasshook__` path) no triple exists in the program; the placeholder of the
second branch is never relied upon — statements about those methods are made on
`callFull`. -/
def call (cfg : Cfg) (req : Req) (fs : Option BrokerDB) (acct : AccountOutcome)
    (nowS transT : String) : Resp × Option BrokerDB × Option AccessLine :=
  match callFull cfg req fs acct nowS transT with
  | some out => out
  | none => (internalError, fs, none)

/-- Specification-side combinator: "fire the account update; if it returns a response,
return it, else return the default success response" (§4.4), with the raising case
recorded. -/
def auFinish : AUResult → Resp → Option BrokerDB → HResult
  | AUResult.raised, _, f => HResult.raised f
  | AUResult.ret (some r), _, f => HResult.resp r f
  | AUResult.ret none, dflt, f => HResult.resp dflt f

/-- All escaped text produced by `saxutils.escape` is free of raw angle brackets. -/
def noAngle (s : String) : Bool := s.data.all (fun c => !(c == '<') && !(c == '>'))

/-! Concrete fixtures used by the witnesses and counterexamples below.  All
timestamps are integral so that every arithmetic step reduces in the kernel. -/

def cfgW : Cfg := { mounted := ["sda"] }

/-- A live, empty container DB: created at 50, last PUT at 100, no delete. -/
def dbLive : BrokerDB :=
  { created_at := 50, put_timestamp := 100, delete_timestamp := 0, rows := [] }

/-- Account headers present but `X-Account-Host` has no `:`. -/
def reqAUBad : Req :=
  { method := "PUT"
    path := "/sda/0/a/c"
    xTimestamp := some "100"
    xAccountHost := some "badhost"
    xAccountPartition := some "0"
    xAccountDevice := some "sdb" }

/-- Account headers present and well-formed. -/
def reqAUGood : Req :=
  { xAccountHost := some "1.2.3.4:6002"
    xAccountPartition := some "0"
    xAccountDevice := some "sdb" }

/-- Container PUT with well-formed timestamp and a colon-free account host. -/
def reqC2x : Req :=
  { method := "PUT"
    path := "/sda/0/a/c"
    xTimestamp := some "100"
    xAccountHost := some "badhost"
    xAccountPartition := some "0"
    xAccountDevice := some "sdb" }

/-- Container PUT with well-formed timestamp and no account headers. -/
def reqC2w : Req :=
  { method := "PUT"
    path := "/sda/0/a/c"
    xTimestamp := some "100" }

/-- Container DELETE with well-formed timestamp and a colon-free account host. -/
def reqC3x : Req :=
  { method := "DELETE"
    path := "/sda/0/a/c"
    xTimestamp := some "200"
    xAccountHost := some "badhost"
    xAccountPartition := some "0"
    xAccountDevice := some "sdb" }

/-- Container DELETE with well-formed timestamp and no account headers. -/
def reqC3w : Req :=
  { method := "DELETE"
    path := "/sda/0/a/c"
    xTimestamp := some "200" }

/-- Mutating request addressed to the unmounted drive `sdb` with no timestamp. -/
def reqC4x : Req :=
  { method := "PUT"
    path := "/sdb/0/a/c" }

/-- Mutating request addressed to the unmounted drive `sdb` with a valid timestamp. -/
def reqC4w : Req :=
  { method := "PUT"
    path := "/sdb/0/a/c"
    xTimestamp := some "100" }

/-- GET with a numeric limit above `CONTAINER_LISTING_LIMIT`. -/
def reqC5x : Req :=
  { method := "GET"
    path := "/sda/0/a/c"
    qLimit := some "10001" }

/-- Request whose method names a non-handler controller attribute. -/
def reqC6x : Req :=
  { method := "account_update"
    path := "/sda/0/a/c" }

/-- Request whose method names no controller attribute at all. -/
def reqC6a : Req :=
  { method := "FROB"
    path := "/sda/0/a/c" }

/-- Request whose method names the `logger` attribute. -/
def reqC6b : Req :=
  { method := "logger"
    path := "/sda/0/a/c" }

/-- Request whose method names the non-raising inherited `__subclasshook__`. -/
def reqC6c : Req :=
  { method := "__subclasshook__"
    path := "/sda/0/a/c" }

/-- A request for the health-check path. -/
def reqC7x : Req :=
  { method := "GET"
    path := "/healthcheck" }

/-- An ordinary GET request (not the health-check path). -/
def reqC7w : Req :=
  { method := "GET"
    path := "/sda/0/a/c" }

/-- GET with a non-numeric limit parameter. -/
def reqC9w : Req :=
  { method := "GET"
    path := "/sda/0/a/c"
    qLimit := some "abc" }

/-- Object PUT with a valid timestamp but no `X-Size` header. -/
def reqC10w : Req :=
  { method := "PUT"
    path := "/sda/0/a/c/o"
    xTimestamp := some "1"
    xContentType := some "text/plain"
    xEtag := some "abc" }

/-- C1: the claim says every outcome other than a 404 status — including "any raised
exception" — yields `None` from `account_update`.  Counterexample: with all three
account headers present but `X-Account-Host` lacking a `:`, the `split(':')` unpacking
raises BEFORE the `try` block, so the exception escapes `account_update` instead of
yielding `None`. -/
theorem C1_counterexample :
    account_update reqAUBad AccountOutcome.exc dbLive = AUResult.raised ∧
    AUResult.raised ≠ AUResult.ret (none : Option Resp) :=
  ⟨by decide, by decide⟩

/-- C1 (amended): `account_update` returns the `HTTPNotFound` response iff the three
account headers are present (non-empty) and, the host being well-formed `ip:port`, the
account service answered 404; with incomplete headers, or a well-formed host and any
other outcome (2xx, other status, connect timeout, read timeout, exception during the
exchange), it returns `None`; it raises iff the headers are present but the host is
not of the form `ip:port` (the exception then escapes to the caller). -/
theorem C1_amended (req : Req) (acct : AccountOutcome) (db : BrokerDB) :
    (account_update req acct db = AUResult.ret (some notFound) ↔
      allAccountHeaders req = true ∧
        (splitHost (req.xAccountHost.getD "")).isSome = true ∧
        acct = AccountOutcome.status 404) ∧
    (account_update req acct db = AUResult.raised ↔
      allAccountHeaders req = true ∧ splitHost (req.xAccountHost.getD "") = none) ∧
    (allAccountHeaders req = false → account_update req acct db = AUResult.ret none) ∧
    (∀ pr, splitHost (req.xAccountHost.getD "") = some pr →
      acct ≠ AccountOutcome.status 404 → account_update req acct db = AUResult.ret none) := by
  unfold account_update
  cases hA : allAccountHeaders req with
  | false => simp
  | true =>
    cases hS : splitHost (req.xAccountHost.getD "") with
    | none => simp [hS]
    | some pr =>
      cases acct with
      | connectTimeout => simp [hS]
      | readTimeout => simp [hS]
      | exc => simp [hS]
      | status n =>
        by_cases h4 : n = 404 <;> simp [hS, h4, notFound]

/-- C1 witness: a 404 from the account service with complete, well-formed headers
produces the `HTTPNotFound` return. -/
theorem C1_witness :
    account_update reqAUGood (AccountOutcome.status 404) dbLive =
      AUResult.ret (some notFound) :=
  (C1_amended reqAUGood (AccountOutcome.status 404) dbLive).1.mpr
    ⟨by decide, by decide, rfl⟩

/-- C2: the claim promises 201 for a container PUT that creates the DB (account update
returning `None` or a response).  Counterexample: with the three account headers
present but a colon-free host, `account_update` raises after `initialize` committed,
and the client sees the catch-all 500, not 201. -/
theorem C2_counterexample :
    (call cfgW reqC2x none AccountOutcome.exc "now" "0.0100").1 = internalError ∧
    (call cfgW reqC2x none AccountOutcome.exc "now" "0.0100").2.1 = some (initDb 100) ∧
    internalError.status = 500 ∧ ¬ internalError.status = 201 :=
  ⟨by decide, by decide, rfl, by decide⟩

/-- C2 (amended): for a container PUT (no object segment) with a well-formed
`x-timestamp` on a mounted device: an absent DB file is initialized with the request
timestamp and the response is 201; an existing DB snapshots `created = is_deleted()`,
applies `update_put_timestamp`, answers 409 if still deleted, else 201/202 by
`created` — in every non-409 case the account update's response, when it returns one,
is returned instead, and if the account update raises (account headers present but
host not `ip:port`) the exception escapes the handler, the mutation having already
been applied. -/
theorem C2_amended (cfg : Cfg) (req : Req) (acct : AccountOutcome)
    (d p a c : String) (t : ℚ)
    (hparse : split_path4 req.path = Except.ok (d, p, a, c, none))
    (hts : req.xTimestamp.bind parseDec = some t)
    (hmt : (cfg.mount_check && !check_mount cfg d) = false) :
    PUTm cfg req none acct =
      auFinish (account_update req acct (initDb t)) createdR (some (initDb t)) ∧
    ∀ db0 : BrokerDB,
      PUTm cfg req (some db0) acct =
        (if (db0.update_put_timestamp t).is_deleted then
          HResult.resp conflict (some (db0.update_put_timestamp t))
        else
          auFinish (account_update req acct (db0.update_put_timestamp t))
            (if db0.is_deleted then createdR else acceptedR)
            (some (db0.update_put_timestamp t))) := by
  constructor
  · simp only [PUTm]
    rw [hparse, hts]
    simp only [hmt, Bool.false_eq_true, if_false]
    cases hau : account_update req acct (initDb t) with
    | raised => simp [auFinish]
    | ret r => cases r <;> simp [auFinish]
  · intro db0
    simp only [PUTm]
    rw [hparse, hts]
    simp only [hmt, Bool.false_eq_true, if_false]
    cases hd : (db0.update_put_timestamp t).is_deleted with
    | true => simp
    | false =>
      simp only [Bool.false_eq_true, if_false]
      cases hau : account_update req acct (db0.update_put_timestamp t) with
      | raised => simp [auFinish]
      | ret r =>
        cases r with
        | none => cases hc : db0.is_deleted <;> simp [auFinish, hc]
        | some resp => simp [auFinish]

/-- C2 witness: concrete container PUTs (no account headers, so the account update
returns `None`): creating the DB answers 201, and re-PUT on the live DB answers 202. -/
theorem C2_witness :
    PUTm cfgW reqC2w none AccountOutcome.exc =
      auFinish (account_update reqC2w AccountOutcome.exc (initDb 100)) createdR
        (some (initDb 100)) ∧
    PUTm cfgW reqC2w (some dbLive) AccountOutcome.exc =
      (if (dbLive.update_put_timestamp 100).is_deleted then
        HResult.resp conflict (some (dbLive.update_put_timestamp 100))
      else
        auFinish (account_update reqC2w AccountOutcome.exc (dbLive.update_put_timestamp 100))
          (if dbLive.is_deleted then createdR else acceptedR)
          (some (dbLive.update_put_timestamp 100))) :=
  ⟨(C2_amended cfgW reqC2w AccountOutcome.exc "sda" "0" "a" "c" 100
      rfl rfl (by decide)).1,
   (C2_amended cfgW reqC2w AccountOutcome.exc "sda" "0" "a" "c" 100
      rfl rfl (by decide)).2 dbLive⟩

/-- C3: the claim promises 204/202 (or the account update's response) once the
container delete succeeded.  Counterexample: with the three account headers present
but a colon-free host, `account_update` raises after `delete_db` committed, and the
client sees the catch-all 500. -/
theorem C3_counterexample :
    (call cfgW reqC3x (some dbLive) AccountOutcome.exc "now" "0.0100").1 = internalError ∧
    (call cfgW reqC3x (some dbLive) AccountOutcome.exc "now" "0.0100").2.1 =
      some { dbLive with delete_timestamp := 200 } ∧
    ¬ internalError.status = 204 ∧ ¬ internalError.status = 202 :=
  ⟨by decide, by decide, by decide, by decide⟩

/-- C3 (amended): for a container DELETE (no object segment) with a well-formed
`x-timestamp` on a mounted device: 404 if the DB file is absent; 409 if the container
is not empty; otherwise `existed = (put_timestamp != 0 and not is_deleted())` is
snapshotted, `delete_db` applied, 409 returned if the container is not deleted
afterwards, else 204/202 by `existed` — the account update's response, when it returns
one, being returned instead, and a raising account update (headers present, host not
`ip:port`) escaping the handler after the deletion was applied. -/
theorem C3_amended (cfg : Cfg) (req : Req) (acct : AccountOutcome)
    (d p a c : String) (t : ℚ)
    (hparse : split_path4 req.path = Except.ok (d, p, a, c, none))
    (hts : req.xTimestamp.bind parseDec = some t)
    (hmt : (cfg.mount_check && !check_mount cfg d) = false) :
    DELETEm cfg req none acct = HResult.resp notFound none ∧
    ∀ db0 : BrokerDB,
      DELETEm cfg req (some db0) acct =
        (if !db0.empty then HResult.resp conflict (some db0)
        else if !((db0.delete_db t).is_deleted) then
          HResult.resp conflict (some (db0.delete_db t))
        else
          auFinish (account_update req acct (db0.delete_db t))
            (if decide (db0.put_timestamp ≠ 0) && !db0.is_deleted then noContent204
             else acceptedR)
            (some (db0.delete_db t))) := by
  constructor
  · simp only [DELETEm]
    rw [hparse, hts]
    simp [hmt]
  · intro db0
    simp only [DELETEm]
    rw [hparse, hts]
    simp only [hmt, Bool.false_eq_true, if_false]
    cases he : db0.empty with
    | false => simp
    | true =>
      simp only [Bool.not_true, Bool.false_eq_true, if_false]
      cases hd : (db0.delete_db t).is_deleted with
      | false => simp
      | true =>
        simp only [Bool.not_true, Bool.false_eq_true, if_false]
        cases hau : account_update req acct (db0.delete_db t) with
        | raised => simp [auFinish]
        | ret r =>
          cases r with
          | none =>
            cases hx : decide (db0.put_timestamp ≠ 0) && !db0.is_deleted <;>
              simp [auFinish, hx]
          | some resp => simp [auFinish]

/-- C3 witness: concrete container DELETEs (no account headers): deleting a live empty
container answers 204; a missing DB file answers 404. -/
theorem C3_witness :
    DELETEm cfgW reqC3w none AccountOutcome.exc = HResult.resp notFound none ∧
    DELETEm cfgW reqC3w (some dbLive) AccountOutcome.exc =
      (if !dbLive.empty then HResult.resp conflict (some dbLive)
      else if !((dbLive.delete_db 200).is_deleted) then
        HResult.resp conflict (some (dbLive.delete_db 200))
      else
        auFinish (account_update reqC3w AccountOutcome.exc (dbLive.delete_db 200))
          (if decide (dbLive.put_timestamp ≠ 0) && !dbLive.is_deleted then noContent204
           else acceptedR)
          (some (dbLive.delete_db 200))) :=
  ⟨(C3_amended cfgW reqC3w AccountOutcome.exc "sda" "0" "a" "c" 200
      rfl rfl (by decide)).1,
   (C3_amended cfgW reqC3w AccountOutcome.exc "sda" "0" "a" "c" 200
      rfl rfl (by decide)).2 dbLive⟩

/-- C4: the claim says the mount check precedes timestamp validation, so an unmounted
drive would answer 507 even with a missing timestamp.  Counterexample: a PUT to the
unmounted drive `sdb` with no `X-Timestamp` answers 400 `Missing timestamp`, not 507:
the timestamp check runs first. -/
theorem C4_counterexample :
    (call cfgW reqC4x none AccountOutcome.exc "now" "0.0100").1 = respMissingTs ∧
    respMissingTs.status = 400 ∧ ¬ respMissingTs.status = 507 :=
  ⟨by decide, rfl, by decide⟩

/-- C4 (amended): for mutating (PUT or DELETE) requests the timestamp-header
validation is performed BEFORE the mount check: a missing or malformed `x-timestamp`
draws 400 `Missing timestamp` regardless of the mount state, and only a request with a
well-formed timestamp reaches the 507 `<drive> is not mounted` answer on an unmounted
device. -/
theorem C4_amended (cfg : Cfg) (req : Req) (fs : Option BrokerDB) (acct : AccountOutcome)
    (d p a c : String) (o : Option String)
    (hparse : split_path4 req.path = Except.ok (d, p, a, c, o)) :
    (req.xTimestamp.bind parseDec = none →
      PUTm cfg req fs acct = HResult.resp respMissingTs fs ∧
      DELETEm cfg req fs acct = HResult.resp respMissingTs fs) ∧
    (∀ t : ℚ, req.xTimestamp.bind parseDec = some t →
      cfg.mount_check = true → check_mount cfg d = false →
      PUTm cfg req fs acct = HResult.resp (notMounted d) fs ∧
      DELETEm cfg req fs acct = HResult.resp (notMounted d) fs) := by
  constructor
  · intro hts
    constructor
    · simp only [PUTm]
      rw [hparse, hts]
    · simp only [DELETEm]
      rw [hparse, hts]
  · intro t hts hmc hcm
    constructor
    · simp only [PUTm]
      rw [hparse, hts]
      simp [hmc, hcm]
    · simp only [DELETEm]
      rw [hparse, hts]
      simp [hmc, hcm]

/-- C4 witness: on the unmounted drive `sdb`, a PUT without timestamp answers 400 and
a PUT with timestamp 100 answers the 507 mount failure. -/
theorem C4_witness :
    PUTm cfgW reqC4x none AccountOutcome.exc = HResult.resp respMissingTs none ∧
    PUTm cfgW reqC4w none AccountOutcome.exc = HResult.resp (notMounted "sdb") none :=
  ⟨((C4_amended cfgW reqC4x none AccountOutcome.exc "sdb" "0" "a" "c" none
      rfl).1 rfl).1,
   ((C4_amended cfgW reqC4w none AccountOutcome.exc "sdb" "0" "a" "c" none
      rfl).2 100 rfl rfl (by decide)).1⟩

/-- C5: the claim says a numeric `limit` above `CONTAINER_LISTING_LIMIT` is capped and
the listing still succeeds.  Counterexample: with the constant at 10000, `limit=10001`
draws 412 `Maximum limit is 10000` — the request fails instead of being capped. -/
theorem C5_counterexample :
    GETm cfgW reqC5x (some dbLive) = preconFailed "Maximum limit is 10000" ∧
    (preconFailed "Maximum limit is 10000").status = 412 ∧
    ¬ (preconFailed "Maximum limit is 10000").status = 200 :=
  ⟨by decide, rfl, by decide⟩

/-- C5 (amended): for a GET on a mounted drive with an existing, non-deleted DB, utf8
parameters and an acceptable delimiter, an all-digit `limit` query parameter whose
value exceeds `CONTAINER_LISTING_LIMIT` is rejected with 412 and body
`Maximum limit is <CONTAINER_LISTING_LIMIT>`; the listing is not performed. -/
theorem C5_amended (cfg : Cfg) (req : Req) (db : BrokerDB)
    (d p a c : String) (o : Option String) (s : String)
    (hparse : split_path4 req.path = Except.ok (d, p, a, c, o))
    (hmt : (cfg.mount_check && !check_mount cfg d) = false)
    (hdel : db.is_deleted = false)
    (hutf : req.paramsUtf8 = true)
    (hde : delimErr req.qDelimiter = none)
    (hl : req.qLimit = some s)
    (hdig : pyIsdigit s = true)
    (hgt : cfg.listingLimit < natOf s) :
    GETm cfg req (some db) =
      preconFailed ("Maximum limit is " ++ toString cfg.listingLimit) := by
  simp only [GETm]
  rw [hparse]
  simp only [hmt, Bool.false_eq_true, if_false, hdel, hutf, Bool.not_true,
    Bool.false_eq_true, if_false]
  rw [hde, hl]
  simp [effLimit, hdig, hgt]

/-- C5 witness: the concrete over-limit GET draws the 412. -/
theorem C5_witness :
    GETm cfgW reqC5x (some dbLive) =
      preconFailed ("Maximum limit is " ++ toString cfgW.listingLimit) :=
  C5_amended cfgW reqC5x dbLive "sda" "0" "a" "c" none "10001"
    rfl (by decide) (by decide) rfl rfl rfl (by decide) (by decide)

/-- C6: the claim says any method outside GET/HEAD/PUT/DELETE/POST draws 405.
Counterexample: the dispatcher is `hasattr(self, req.method)`, so the method
`account_update` names an existing attribute, the mis-arity call raises, and the
catch-all answers 500, not 405. -/
theorem C6_counterexample :
    (call cfgW reqC6x none AccountOutcome.exc "now" "0.0100").1 = internalError ∧
    internalError.status = 500 ∧ ¬ internalError.status = 405 :=
  ⟨by decide, rfl, by decide⟩

/-- `dispatch` produces the non-response outcome only for a method listed in
`nonRespAttrs`. -/
theorem dispatch_nonResp (cfg : Cfg) (req : Req) (fs : Option BrokerDB)
    (acct : AccountOutcome) (f : Option BrokerDB)
    (h : dispatch cfg req fs acct = DResult.nonResp f) :
    nonRespAttrs.contains req.method = true := by
  unfold dispatch at h
  split_ifs at h
  simp_all

/-- `reqDispatch` produces the non-response outcome only for a method listed in
`nonRespAttrs`. -/
theorem reqDispatch_nonResp (cfg : Cfg) (req : Req) (fs : Option BrokerDB)
    (acct : AccountOutcome) (f : Option BrokerDB)
    (h : reqDispatch cfg req fs acct = DResult.nonResp f) :
    nonRespAttrs.contains req.method = true := by
  unfold reqDispatch at h
  by_cases hxe : (!check_xml_encodable req.path) = true
  · rw [if_pos hxe] at h
    exact absurd h (by simp)
  · rw [if_neg hxe] at h
    exact dispatch_nonResp cfg req fs acct f h

/-- C6 (amended): a request (path not `/healthcheck`, XML-encodable) whose method is
none of GET, HEAD, PUT, DELETE, POST draws 405 only when the method names no attribute
of the controller at all — neither its own attributes nor those inherited from
`object`; a method naming an attribute whose call raises (`account_update`, `logger`,
`__repr__`, `__doc__`, ...) is dispatched to it and the catch-all answers 500; the
method `__subclasshook__`, whose dispatched call returns `NotImplemented` without
raising, makes `res.status` raise outside the `try`, so no response is produced at
all (and nothing is logged). -/
theorem C6_amended (cfg : Cfg) (req : Req) (fs : Option BrokerDB) (acct : AccountOutcome)
    (nowS transT : String)
    (hh : ¬ req.path = "/healthcheck")
    (hx : check_xml_encodable req.path = true)
    (hm : ¬ req.method = "GET") (hm2 : ¬ req.method = "HEAD") (hm3 : ¬ req.method = "PUT")
    (hm4 : ¬ req.method = "DELETE") (hm5 : ¬ req.method = "POST") :
    (controllerAttrs.contains req.method = false →
      nonRespAttrs.contains req.method = false →
      (call cfg req fs acct nowS transT).1 = methodNotAllowed ∧
      callFull cfg req fs acct nowS transT = some (call cfg req fs acct nowS transT)) ∧
    (controllerAttrs.contains req.method = true →
      (call cfg req fs acct nowS transT).1 = internalError) ∧
    (nonRespAttrs.contains req.method = true →
      callFull cfg req fs acct nowS transT = none) := by
  refine ⟨?_, ?_, ?_⟩
  · intro hc hn
    have hc2 : ¬ (req.method ∈ controllerAttrs) := by simpa using hc
    have hn2 : ¬ (req.method ∈ nonRespAttrs) := by simpa using hn
    constructor
    · simp [call, callFull, reqDispatch, dispatch, hh, hx, hm, hm2, hm3, hm4, hm5, hc2, hn2]
    · simp [call, callFull, reqDispatch, dispatch, hh, hx, hm, hm2, hm3, hm4, hm5, hc2, hn2]
  · intro hc
    have hc2 : req.method ∈ controllerAttrs := by simpa using hc
    have hn2 : ¬ (req.method ∈ nonRespAttrs) := by
      intro hmem
      have hsub : req.method = "__subclasshook__" := by simpa [nonRespAttrs] using hmem
      rw [hsub] at hc2
      exact absurd hc2 (by decide)
    simp [call, callFull, reqDispatch, dispatch, hh, hx, hm, hm2, hm3, hm4, hm5, hc2, hn2]
  · intro hn
    have hn2 : req.method ∈ nonRespAttrs := by simpa using hn
    simp [callFull, reqDispatch, dispatch, hh, hx, hm, hm2, hm3, hm4, hm5, hn2]

/-- C6 witness: the unknown method `FROB` draws 405, the attribute-naming method
`logger` draws 500, and the method `__subclasshook__` makes the request terminate
with no response at all. -/
theorem C6_witness :
    (call cfgW reqC6a none AccountOutcome.exc "now" "0.0100").1 = methodNotAllowed ∧
    (call cfgW reqC6b none AccountOutcome.exc "now" "0.0100").1 = internalError ∧
    callFull cfgW reqC6c none AccountOutcome.exc "now" "0.0100" = none :=
  ⟨((C6_amended cfgW reqC6a none AccountOutcome.exc "now" "0.0100" (by decide) (by decide)
      (by decide) (by decide) (by decide) (by decide) (by decide)).1 (by decide) (by decide)).1,
   (C6_amended cfgW reqC6b none AccountOutcome.exc "now" "0.0100" (by decide) (by decide)
      (by decide) (by decide) (by decide) (by decide) (by decide)).2.1 (by decide),
   (C6_amended cfgW reqC6c none AccountOutcome.exc "now" "0.0100" (by decide) (by decide)
      (by decide) (by decide) (by decide) (by decide) (by decide)).2.2 (by decide)⟩

/-- C7: the claim says every request (every method and every path) produces exactly
one access-log line.  Counterexample: a request for `/healthcheck` is answered by the
health-check app before the logging code runs, so no line is produced. -/
theorem C7_counterexample :
    call cfgW reqC7x none AccountOutcome.exc "now" "0.0100" = (healthResp, none, none) :=
  by decide

/-- C7 (amended): every request whose path is not `/healthcheck` and whose method
does not name the non-raising inherited attribute `__subclasshook__` produces exactly
one access-log line, whose message carries the remote address, timestamp, method,
path, status, content-length or dash, transaction id, referer or dash, user-agent or
dash and elapsed time, and which is logged at debug level iff the upper-cased method
is POST, else at info level; moreover `__call__` really delivers that triple
(`callFull` is `some`).  A `/healthcheck` request is answered before the logging code,
and a `__subclasshook__` method makes the log-line construction itself raise before
anything is logged. -/
theorem C7_amended (cfg : Cfg) (req : Req) (fs : Option BrokerDB) (acct : AccountOutcome)
    (nowS transT : String)
    (hh : ¬ req.path = "/healthcheck")
    (hnr : nonRespAttrs.contains req.method = false) :
    (call cfg req fs acct nowS transT).2.2 =
      some { level := if pyUpper req.method = "POST" then LogLevel.debug else LogLevel.info,
             msg := accessMsg req (call cfg req fs acct nowS transT).1 nowS transT } ∧
    callFull cfg req fs acct nowS transT = some (call cfg req fs acct nowS transT) := by
  unfold call callFull
  rw [if_neg hh]
  cases h : reqDispatch cfg req fs acct with
  | handled hr =>
    cases hr with
    | resp r f => simp [accessLevel]
    | raised f => simp [accessLevel]
  | nonResp f =>
    exfalso
    have hmem := reqDispatch_nonResp cfg req fs acct f h
    exact Bool.false_ne_true (hnr ▸ hmem)

/-- C7 witness: a concrete GET produces its single info-level line, and `__call__`
really delivers the triple. -/
theorem C7_witness :
    ((call cfgW reqC7w none AccountOutcome.exc "now" "0.0100").2.2 =
      some { level := LogLevel.info,
             msg := accessMsg reqC7w
               (call cfgW reqC7w none AccountOutcome.exc "now" "0.0100").1 "now" "0.0100" }) ∧
    callFull cfgW reqC7w none AccountOutcome.exc "now" "0.0100" =
      some (call cfgW reqC7w none AccountOutcome.exc "now" "0.0100") :=
  C7_amended cfgW reqC7w none AccountOutcome.exc "now" "0.0100" (by decide) (by decide)

/-- C8: the claim says ALL text content of the emitted XML elements — the `<hash>`
child included — is XML-escaped.  Counterexample: the etag `x<y` is interpolated
verbatim into `<hash>x<y</hash>` (its escaped form would be `x&lt;y`), so the hash
content is not escaped. -/
theorem C8_counterexample :
    xmlListing "c" [LRow.obj "n" 0 5 "text/plain" "x<y"] =
      "<?xml version=\"1.0\" encoding=\"UTF-8\"?>\n<container name=\"c\"><object><name>n</name><hash>x<y</hash><bytes>5</bytes><content_type>text/plain</content_type><last_modified>1970-01-01T00:00:00</last_modified></object></container>" ∧
    saxEscape "x<y" = "x&lt;y" :=
  ⟨by decide, by decide⟩

theorem strData_append (a b : String) : (a ++ b).data = a.data ++ b.data := rfl

theorem escChar_noAngle (c : Char) : noAngle (escChar c) = true := by
  unfold escChar noAngle
  split
  · decide
  · split
    · decide
    · split
      · decide
      · rename_i h1 h2 h3
        simp only [String.data]
        simp [List.all, h2, h3]

theorem escList_noAngle (l : List Char) : noAngle (escList l) = true := by
  induction l with
  | nil => decide
  | cons c cs ih =>
    unfold escList
    unfold noAngle at ih ⊢
    rw [strData_append, List.all_append, ih, Bool.and_true]
    exact escChar_noAngle c

/-- C8 (amended): in the XML serialization, the `<name>` and `<content_type>` children
and the subdir name attribute are escaped through `saxutils.escape` (whose output never
contains a raw angle bracket), the container name attribute goes through
`saxutils.quoteattr`, while the `<hash>` (etag) and `<last_modified>` contents are
interpolated verbatim. -/
theorem C8_amended (name content_type etag : String) (ts : ℚ) (sz : Int)
    (container : String) (rows : List LRow) :
    xmlRow (LRow.obj name ts sz content_type etag) =
      "<object><name>" ++ saxEscape name ++ "</name><hash>" ++ etag ++ "</hash>" ++
        "<bytes>" ++ toString sz ++ "</bytes><content_type>" ++ saxEscape content_type ++
        "</content_type><last_modified>" ++ isoOf ts ++ "</last_modified></object>" ∧
    xmlRow (LRow.subdir name) = "<subdir name=\"" ++ saxEscape name ++ "\" />" ∧
    xmlListing container rows =
      "<?xml version=\"1.0\" encoding=\"UTF-8\"?>\n" ++ "<container name=" ++
        quoteattr container ++ ">" ++ String.join (rows.map xmlRow) ++ "</container>" ∧
    noAngle (saxEscape name) = true ∧ noAngle (saxEscape content_type) = true :=
  ⟨rfl, rfl, rfl, escList_noAngle name.data, escList_noAngle content_type.data⟩

/-- C9 (confirmed): a `limit` query parameter that is not composed solely of decimal
digits (negative numbers, signs, letters, empty) is silently ignored: the limit logic
yields the default `CONTAINER_LISTING_LIMIT` without error, and the whole GET behaves
exactly as if the parameter were absent. -/
theorem C9_theorem (cfg : Cfg) (req : Req) (fs : Option BrokerDB) (s : String)
    (hl : req.qLimit = some s) (hd : pyIsdigit s = false) :
    effLimit cfg (some s) = Except.ok cfg.listingLimit ∧
    GETm cfg req fs = GETm cfg { req with qLimit := none } fs := by
  have h1 : effLimit cfg (some s) = Except.ok cfg.listingLimit := by
    simp [effLimit, hd]
  refine ⟨h1, ?_⟩
  cases req with
  | mk method path remote referer ua ts sz ct et ah ap ad tid aod qp qpre qdel qm ql qf af pu jv =>
    simp only at hl
    subst hl
    simp only [GETm]
    rw [h1]
    rfl

/-- C9 witness: the non-numeric limit `abc` leaves the default limit in force and the
GET identical to the limit-free GET. -/
theorem C9_witness :
    effLimit cfgW (some "abc") = Except.ok cfgW.listingLimit ∧
    GETm cfgW reqC9w (some dbLive) = GETm cfgW { reqC9w with qLimit := none } (some dbLive) :=
  C9_theorem cfgW reqC9w (some dbLive) "abc" rfl (by decide)

/-- C10 (confirmed): for an object PUT with a well-formed `x-timestamp` on a mounted
device whose container DB file exists, a missing `X-Size`, `X-Content-Type` or
`X-ETag` header raises (`KeyError`, or `ValueError` from `int()`) before `put_object`
is invoked: the handler yields `raised` with the DB unchanged, and the catch-all in
`__call__` turns this into the 500 traceback response, still with the DB unchanged. -/
theorem C10_theorem (cfg : Cfg) (req : Req) (acct : AccountOutcome) (nowS transT : String)
    (d p a c o : String) (db : BrokerDB) (t : ℚ)
    (hme : req.method = "PUT")
    (hh : ¬ req.path = "/healthcheck")
    (hx : check_xml_encodable req.path = true)
    (hparse : split_path4 req.path = Except.ok (d, p, a, c, some o))
    (hts : req.xTimestamp.bind parseDec = some t)
    (hmt : (cfg.mount_check && !check_mount cfg d) = false)
    (hmiss : req.xSize = none ∨ req.xContentType = none ∨ req.xEtag = none) :
    PUTm cfg req (some db) acct = HResult.raised (some db) ∧
    (call cfg req (some db) acct nowS transT).1 = internalError ∧
    (call cfg req (some db) acct nowS transT).2.1 = some db := by
  have hput : PUTm cfg req (some db) acct = HResult.raised (some db) := by
    simp only [PUTm]
    rw [hparse, hts]
    simp only [hmt, Bool.false_eq_true, if_false]
    rcases hmiss with h | h | h
    · rw [h]
    · cases hS : req.xSize with
      | none => rfl
      | some sz =>
        dsimp only
        cases hI : pyInt sz with
        | none => rfl
        | some n =>
          dsimp only
          rw [h]
    · cases hS : req.xSize with
      | none => rfl
      | some sz =>
        dsimp only
        cases hI : pyInt sz with
        | none => rfl
        | some n =>
          dsimp only
          cases hC : req.xContentType with
          | none => rfl
          | some ct =>
            dsimp only
            rw [h]
  refine ⟨hput, ?_, ?_⟩ <;>
    simp [call, callFull, reqDispatch, dispatch, hh, hx, hme, hput]

/-- C10 witness: the concrete object PUT without `X-Size` raises and the request
answers 500 with the DB unchanged. -/
theorem C10_witness :
    PUTm cfgW reqC10w (some dbLive) AccountOutcome.exc = HResult.raised (some dbLive) ∧
    (call cfgW reqC10w (some dbLive) AccountOutcome.exc "now" "0.0100").1 = internalError ∧
    (call cfgW reqC10w (some dbLive) AccountOutcome.exc "now" "0.0100").2.1 = some dbLive :=
  C10_theorem cfgW reqC10w AccountOutcome.exc "now" "0.0100" "sda" "0" "a" "c" "o" dbLive 1
    rfl (by decide) (by decide) rfl rfl (by decide) (Or.inl rfl)

end SwiftSrv
